import Mathlib

/-!
Shallow embedding of the JsSIP SIP User Agent engine (`src/UA.js`) in Lean 4.

The embedding models the engine state (`JsSIP.UA`) as a Lean structure, the
event handlers and public operations as pure functions from that state to a
new state together with a trace of side effects (protocol replies, collaborator
calls, emitted notifications), and the registry lookups (`findSession`,
`findDialog`) and failover selector (`getNextWsServer`) as pure functions on
the corresponding maps and candidate pool. Mutation in the JavaScript source
becomes explicit state passing; external collaborator answers (the transaction
layer's retransmission check, WebRTC availability, URI normalization success)
become explicit boolean inputs; `Math.random()` in the selector becomes an
arbitrary index argument. A `throw` of a JsSIP exception becomes `Except.error`.
-/

namespace JsSIPUA

/-- UA lifecycle status (`JsSIP.c.UA_STATUS_*`). The source only compares these
constants with `===`, so they are modelled as a four-element inductive. -/
inductive UAStatus
  | INIT
  | READY
  | NOT_READY
  | USER_CLOSED
  deriving DecidableEq, Repr

/-- UA error causes (`JsSIP.c.UA_NETWORK_ERROR`, `JsSIP.c.UA_CONFIGURATION_ERROR`).
The source only compares these with `===`. -/
inductive UACause
  | networkError
  | configurationError
  deriving DecidableEq, Repr

/-- WebSocket server candidate status `JsSIP.c.WS_SERVER_ERROR`.
Modelled from the spec: the constants file `JsSIP.c` is not part of `src/`;
the spec (§9) notes that the excluded tombstone is the literal status value `2`
that `getNextWsServer` compares against, and §4.2 says the Error event marks
the failing candidate EXCLUDED, so `WS_SERVER_ERROR = 2`. -/
def WS_SERVER_ERROR : Nat := 2

/-- WebSocket server candidate status `JsSIP.c.WS_SERVER_READY`.
Modelled from the spec: the constants file is not in `src/`; only distinctness
from the excluded value `2` matters to the engine logic in `src/UA.js`. -/
def WS_SERVER_READY : Nat := 1

/-- WebSocket server candidate status `JsSIP.c.WS_SERVER_DISCONNECTED`.
Modelled from the spec: the constants file is not in `src/`; only distinctness
from the excluded value `2` matters to the engine logic in `src/UA.js`. -/
def WS_SERVER_DISCONNECTED : Nat := 0

/-- One entry of `configuration.outbound_proxy_set`: a signaling-server
candidate with a numeric weight and a numeric status. Identity fields
(`ws_uri`, `sip_uri`, ...) are irrelevant to the routing logic and are
represented by an opaque identifier `host`. -/
structure Server where
  host : String
  weight : Int
  status : Nat
  deriving DecidableEq, Repr

/-- One step of the candidate-collection loop body of
`JsSIP.UA.prototype.getNextWsServer` (src/UA.js lines 512-525):
skip candidates with status `2`; start the list on the first survivor;
restart it on a strictly heavier survivor; append on a weight tie;
drop strictly lighter survivors. -/
def candidateStep (candidates : List Server) (s : Server) : List Server :=
  if s.status = 2 then candidates
  else
    match candidates with
    | [] => [s]
    | c :: _ =>
      if s.weight > c.weight then [s]
      else if s.weight = c.weight then candidates ++ [s]
      else candidates

/-- The candidate list built by the `for` loop of
`JsSIP.UA.prototype.getNextWsServer` over the configured pool. -/
def buildCandidates (pool : List Server) : List Server :=
  pool.foldl candidateStep []

/-- `JsSIP.UA.prototype.getNextWsServer` (src/UA.js lines 507-530).
`ridx` models `Math.floor(Math.random() * candidates.length)`; indexing an
empty (or out of range) array yields `undefined`, i.e. `none`. The source
function reads `this.configuration.outbound_proxy_set` and writes nothing,
so it is embedded as a pure function of the pool. -/
def getNextWsServer (pool : List Server) (ridx : Nat) : Option Server :=
  (buildCandidates pool)[ridx]?

/-- SIP method of an inbound request. The dispatcher only distinguishes the
methods below (`JsSIP.c.INVITE`, `ACK`, `OPTIONS`, `MESSAGE`, `BYE`, `CANCEL`,
`NOTIFY`); every other method reaches the `default` switch branch and is
modelled by `OTHER`. -/
inductive Method
  | INVITE
  | ACK
  | OPTIONS
  | MESSAGE
  | BYE
  | CANCEL
  | NOTIFY
  | OTHER
  deriving DecidableEq, Repr

/-- The fields of a `JsSIP.IncomingRequest` that `UA.js` reads: the method,
the request-URI user, the `Call-ID`, and the two tags. An absent (falsy)
tag is modelled by the empty string, matching the `!request.to_tag` test. -/
structure SipRequest where
  method : Method
  ruri_user : String
  call_id : String
  from_tag : String
  to_tag : String
  deriving DecidableEq, Repr

/-- The `JsSIP.Registrator` collaborator, as far as `UA.js` inspects it:
only its `registered` flag is read. -/
structure Registrator where
  registered : Bool
  deriving DecidableEq, Repr

/-- The engine state of `JsSIP.UA` that the routing and lifecycle logic reads
and writes. `sessions` and `dialogs` are the registry maps (JS objects keyed
by concatenated identifier strings, values modelled by opaque identifiers);
`applicants` holds the keys of the non-dialog request contexts. -/
structure UA where
  conf_user : String
  auto_register : Bool
  outbound_proxy_set : List Server
  status : UAStatus
  error : Option UACause
  registrator : Option Registrator
  sessions : List (String × String)
  dialogs : List (String × String)
  applicants : List String
  deriving DecidableEq, Repr

/-- Answers of external collaborators consulted during dispatch:
`JsSIP.Transactions.checkTransaction` (retransmission dedup) and
`JsSIP.utils.isWebRtcSupported`. -/
structure DispatchEnv where
  checkTransaction : Bool
  webRtcSupported : Bool
  deriving DecidableEq, Repr

/-- Observable side effects of the engine: protocol replies, collaborator
calls, object creations, log warnings, timer scheduling, and emitted
notifications. A stateless reply (`request.reply_sl`) is distinguished from
a transaction-aware one (`request.reply`). -/
inductive Event
  | replySl (code : Nat) (reason : String)
  | reply (code : Nat) (reason : String) (headers : List (String × String))
  | createInviteServerTransaction
  | createNonInviteServerTransaction
  | sessionLookup
  | dialogLookup
  | toMessageReceiver
  | newIncomingSession
  | toSession (id : String)
  | toDialog (id : String)
  | warn (msg : String)
  | sessionTransportError (id : String)
  | sessionTerminate (id : String)
  | applicantClose (id : String)
  | registratorOnTransportClosed
  | registratorOnTransportConnected
  | registratorClose
  | registratorRegister
  | registratorDeregister (all : Bool)
  | newRegistrator
  | newTransport (server : Server)
  | newTransportMaybe (server : Option Server)
  | transportConnect
  | newOutgoingSession
  | newMessageSender
  | scheduleGraceTimer
  | emit (name : String)
  deriving DecidableEq, Repr

/-- Reason phrase `JsSIP.c.REASON_200`. Modelled from the spec: the constants
file is not in `src/`; the spec calls the reply "200 OK". -/
def REASON_200 : String := "OK"

/-- Reason phrase `JsSIP.c.REASON_404`. Modelled from the spec: "404 Not Found". -/
def REASON_404 : String := "Not Found"

/-- Reason phrase `JsSIP.c.REASON_405`. Modelled from the spec: "405 Method Not Allowed". -/
def REASON_405 : String := "Method Not Allowed"

/-- Reason phrase `JsSIP.c.REASON_410`. Modelled from the spec: "410 Gone". -/
def REASON_410 : String := "Gone"

/-- Reason phrase `JsSIP.c.REASON_481`. Modelled from the spec:
"481 Call/Transaction Does Not Exist". -/
def REASON_481 : String := "Call/Transaction Does Not Exist"

/-- Capability header value `JsSIP.c.ALLOWED_METHODS`. Modelled from the spec:
the supported-methods list lives in the constants file, not in `src/`;
only its identity matters here. -/
def ALLOWED_METHODS : String := "ALLOWED_METHODS"

/-- Capability header value `JsSIP.c.ACCEPTED_BODY_TYPES`. Modelled from the
spec: the accepted content types list lives in the constants file, not in
`src/`; only its identity matters here. -/
def ACCEPTED_BODY_TYPES : String := "ACCEPTED_BODY_TYPES"

/-- `JsSIP.UA.prototype.findSession` (src/UA.js lines 459-473): try the key
`call_id + from_tag`, then `call_id + to_tag`, else `null`. -/
def findSession (sessions : List (String × String)) (req : SipRequest) :
    Option String :=
  match sessions.lookup (req.call_id ++ req.from_tag) with
  | some sessionA => some sessionA
  | none => sessions.lookup (req.call_id ++ req.to_tag)

/-- `JsSIP.UA.prototype.findDialog` (src/UA.js lines 481-500): try the key
`call_id + from_tag + to_tag`, then `call_id + to_tag + from_tag`, else
`null`. -/
def findDialog (dialogs : List (String × String)) (req : SipRequest) :
    Option String :=
  match dialogs.lookup (req.call_id ++ req.from_tag ++ req.to_tag) with
  | some dialog => some dialog
  | none => dialogs.lookup (req.call_id ++ req.to_tag ++ req.from_tag)

/-- `!this.registrator || (this.registrator && !this.registrator.registered)`
(src/UA.js line 381): the engine has no active, confirmed registration. -/
def noActiveRegistration (ua : UA) : Bool :=
  match ua.registrator with
  | none => true
  | some r => !r.registered

/-- Server-transaction creation step of `receiveRequest` (src/UA.js lines
359-364): an `InviteServerTransaction` for INVITE, a
`NonInviteServerTransaction` for every other non-ACK method, nothing for ACK. -/
def serverTransactionEvents (req : SipRequest) : List Event :=
  if req.method = Method.INVITE then [Event.createInviteServerTransaction]
  else if req.method ≠ Method.ACK then [Event.createNonInviteServerTransaction]
  else []

/-- OPTIONS shortcut of `receiveRequest` (src/UA.js lines 371-377): an
immediate 200 reply with the capability headers. Note the source does not
`return` here; dispatch continues into the routing fork. -/
def optionsEvents (req : SipRequest) : List Event :=
  if req.method = Method.OPTIONS then
    [Event.reply 200 REASON_200
      [("Allow", ALLOWED_METHODS), ("Accept", ACCEPTED_BODY_TYPES)]]
  else []

/-- Initial-request branch of `receiveRequest` (src/UA.js lines 380-420):
reply 410 without an active registration, otherwise dispatch by method. -/
def initialRequestEvents (ua : UA) (env : DispatchEnv) (req : SipRequest) :
    List Event :=
  if noActiveRegistration ua then [Event.reply 410 REASON_410 []]
  else
    match req.method with
    | Method.MESSAGE => [Event.toMessageReceiver]
    | Method.INVITE =>
        if !env.webRtcSupported then
          [Event.warn "Call invitation received but rtcweb is not supported"]
        else [Event.newIncomingSession]
    | Method.BYE => [Event.reply 481 REASON_481 []]
    | Method.CANCEL =>
        Event.sessionLookup ::
          (match findSession ua.sessions req with
           | some s => [Event.toSession s]
           | none => [Event.warn "Received CANCEL request for a non existent session"])
    | Method.ACK => []
    | _ => [Event.reply 405 REASON_405 []]

/-- In-dialog branch of `receiveRequest` (src/UA.js lines 421-446): hand off
to a matching dialog; for NOTIFY fall back to the session registry; otherwise
reply 481 unless the method is ACK, which is absorbed silently. -/
def inDialogEvents (ua : UA) (req : SipRequest) : List Event :=
  Event.dialogLookup ::
    (match findDialog ua.dialogs req with
     | some d => [Event.toDialog d]
     | none =>
        if req.method = Method.NOTIFY then
          Event.sessionLookup ::
            (match findSession ua.sessions req with
             | some s => [Event.toSession s]
             | none =>
                [Event.warn "Received a NOTIFY request for a non existent session",
                 Event.reply 481 "Subscription does not exist" []])
        else if req.method ≠ Method.ACK then [Event.reply 481 REASON_481 []]
        else [])

/-- `JsSIP.UA.prototype.receiveRequest` (src/UA.js lines 343-447): the request
dispatcher. Returns the ordered trace of side effects of one invocation. -/
def receiveRequest (ua : UA) (env : DispatchEnv) (req : SipRequest) :
    List Event :=
  if req.ruri_user ≠ ua.conf_user then
    [Event.replySl 404 REASON_404]
  else if env.checkTransaction then []
  else
    serverTransactionEvents req ++ optionsEvents req ++
      (if req.to_tag = "" then initialRequestEvents ua env req
       else inDialogEvents ua req)

/-- Whether an event is a protocol reply (stateless or transaction-aware). -/
def isReply : Event → Bool
  | Event.replySl _ _ => true
  | Event.reply _ _ _ => true
  | _ => false

/-- Number of protocol replies in a trace. -/
def countReplies (tr : List Event) : Nat := (tr.filter isReply).length

/-- Whether an event is a protocol reply with the given status code. -/
def isReplyCode (code : Nat) : Event → Bool
  | Event.replySl c _ => c = code
  | Event.reply c _ _ => c = code
  | _ => false

/-- Number of protocol replies with the given status code in a trace. -/
def countCode (code : Nat) (tr : List Event) : Nat :=
  (tr.filter (isReplyCode code)).length

/-- `transport.server.status = <st>`: update the status of the candidate at
position `i` of the pool, leaving the rest unchanged. -/
def markServer : List Server → Nat → Nat → List Server
  | [], _, _ => []
  | s :: rest, 0, st => { s with status := st } :: rest
  | s :: rest, Nat.succ i, st => s :: markServer rest i st

/-- `JsSIP.UA.prototype.closeSessionsOnTransportError` (src/UA.js lines
536-547): run `onTransportError` on every session, then
`onTransportClosed` on the registrator when one exists. -/
def closeSessionsOnTransportError (ua : UA) : List Event :=
  ua.sessions.map (fun s => Event.sessionTransportError s.2) ++
    (match ua.registrator with
     | some _ => [Event.registratorOnTransportClosed]
     | none => [])

/-- `JsSIP.UA.prototype.onTransportError` (src/UA.js lines 284-304):
mark the failing candidate (at `serverIdx`) with `WS_SERVER_ERROR`, then ask
the failover selector for a next candidate (randomness modelled by `ridx`).
With a candidate: open a new transport against it. Without: close all
sessions and the registration, degrade to `NOT_READY` with a network-error
cause, and emit `disconnect`. -/
def onTransportError (ua : UA) (serverIdx ridx : Nat) : UA × List Event :=
  let pool := markServer ua.outbound_proxy_set serverIdx WS_SERVER_ERROR
  let ua1 := { ua with outbound_proxy_set := pool }
  match getNextWsServer pool ridx with
  | some server => (ua1, [Event.newTransport server])
  | none =>
      ({ ua1 with status := UAStatus.NOT_READY, error := some UACause.networkError },
        closeSessionsOnTransportError ua1 ++ [Event.emit "disconnect"])

/-- `JsSIP.UA.prototype.onTransportConnected` (src/UA.js lines 312-332):
mark the connected candidate (at `serverIdx`) with `WS_SERVER_READY`; if the
engine was closed by the user, stop there; otherwise handle auto-registration,
become `READY`, clear the error cause and emit `connect`. The assignment
`this.transport = transport` carries no information in this model (the active
transport is not otherwise inspected by the embedded logic). A freshly created
registrator starts unregistered. -/
def onTransportConnected (ua : UA) (serverIdx : Nat) : UA × List Event :=
  let ua1 :=
    { ua with outbound_proxy_set := markServer ua.outbound_proxy_set serverIdx WS_SERVER_READY }
  if ua1.status = UAStatus.USER_CLOSED then (ua1, [])
  else
    let regStep : UA × List Event :=
      if ua1.auto_register then
        match ua1.registrator with
        | some _ => (ua1, [Event.registratorOnTransportConnected])
        | none => ({ ua1 with registrator := some ⟨false⟩ }, [Event.newRegistrator])
      else (ua1, [])
    ({ regStep.1 with status := UAStatus.READY, error := none },
      regStep.2 ++ [Event.emit "connect"])

/-- The exceptions of `JsSIP.exceptions` thrown by the public API of `UA.js`. -/
inductive UAExc
  | notReadyError
  | webRtcNotSupportedError
  | invalidTargetError
  deriving DecidableEq, Repr

/-- `JsSIP.UA.prototype.register` (src/UA.js lines 76-82): delegate to the
registrator in `READY`, else throw `NotReadyError`. -/
def register (ua : UA) : Except UAExc (List Event) :=
  if ua.status = UAStatus.READY then Except.ok [Event.registratorRegister]
  else Except.error UAExc.notReadyError

/-- `JsSIP.UA.prototype.deregister` (src/UA.js lines 90-96): delegate to the
registrator in `READY`, else throw `NotReadyError`. -/
def deregister (ua : UA) (all : Bool) : Except UAExc (List Event) :=
  if ua.status = UAStatus.READY then Except.ok [Event.registratorDeregister all]
  else Except.error UAExc.notReadyError

/-- `JsSIP.UA.prototype.call` (src/UA.js lines 136-155): `NotReadyError`
outside `READY`; then `WebRtcNotSupportedError` without WebRTC; then
`InvalidTargetError` when `JsSIP.utils.normalizeUri` rejects the target
(modelled by `targetValid`); else create an outgoing session. -/
def call (ua : UA) (env : DispatchEnv) (targetValid : Bool) :
    Except UAExc (List Event) :=
  if ua.status ≠ UAStatus.READY then Except.error UAExc.notReadyError
  else if !env.webRtcSupported then Except.error UAExc.webRtcNotSupportedError
  else if !targetValid then Except.error UAExc.invalidTargetError
  else Except.ok [Event.newOutgoingSession]

/-- `JsSIP.UA.prototype.message` (src/UA.js lines 168-182): `NotReadyError`
outside `READY`; then `InvalidTargetError` when the target does not
normalize; else create a message sender. -/
def message (ua : UA) (targetValid : Bool) : Except UAExc (List Event) :=
  if ua.status ≠ UAStatus.READY then Except.error UAExc.notReadyError
  else if !targetValid then Except.error UAExc.invalidTargetError
  else Except.ok [Event.newMessageSender]

/-- `JsSIP.UA.prototype.stop` (src/UA.js lines 189-221): throws
`NotReadyError` outside `READY` before touching any state; in `READY` it
closes the registrator when present, terminates every session, closes every
applicant, moves to `USER_CLOSED` and schedules the shutdown grace timer. -/
def stop (ua : UA) : Except UAExc (UA × List Event) :=
  if ua.status ≠ UAStatus.READY then Except.error UAExc.notReadyError
  else
    Except.ok
      ({ ua with status := UAStatus.USER_CLOSED },
        (match ua.registrator with
         | some _ => [Event.registratorClose]
         | none => []) ++
        ua.sessions.map (fun s => Event.sessionTerminate s.2) ++
        ua.applicants.map Event.applicantClose ++
        [Event.scheduleGraceTimer])

/-- `JsSIP.UA.prototype.start` (src/UA.js lines 229-244): in `INIT` open a
transport to a selected candidate (possibly `undefined` when the pool is
exhausted, hence the `Option`); in `USER_CLOSED` resume by becoming `READY`
and reconnecting; a redundant `start` in `READY` is a no-op; otherwise throw
`NotReadyError`. -/
def start (ua : UA) (ridx : Nat) : Except UAExc (UA × List Event) :=
  if ua.status = UAStatus.INIT then
    Except.ok (ua, [Event.newTransportMaybe (getNextWsServer ua.outbound_proxy_set ridx)])
  else if ua.status = UAStatus.USER_CLOSED then
    Except.ok ({ ua with status := UAStatus.READY }, [Event.transportConnect])
  else if ua.status = UAStatus.READY then Except.ok (ua, [])
  else Except.error UAExc.notReadyError

/-- `JsSIP.UA.prototype.networkIsReady` (src/UA.js lines 63-69): reconnect
only when the engine is `NOT_READY` because of a network error. -/
def networkIsReady (ua : UA) : List Event :=
  if ua.status = UAStatus.NOT_READY ∧ ua.error = some UACause.networkError then
    [Event.transportConnect]
  else []

/-- Number of occurrences of a given event in a trace. -/
def countEvent (e : Event) (tr : List Event) : Nat :=
  (tr.filter (fun x => x = e)).length

/-- A concrete engine state used to instantiate universally quantified
theorems: a `READY`, registered UA for the local user `"alice"` with empty
registries. -/
def sampleUA : UA :=
  { conf_user := "alice", auto_register := true, outbound_proxy_set := [],
    status := UAStatus.READY, error := none, registrator := some ⟨true⟩,
    sessions := [], dialogs := [], applicants := [] }

/-- A concrete dispatch environment: the request is not a retransmission and
WebRTC is available. -/
def sampleEnv : DispatchEnv := { checkTransaction := false, webRtcSupported := true }

/-- A concrete engine state with a single candidate and one live session:
marking that candidate EXCLUDED exhausts the pool. -/
def exhaustedUA : UA :=
  { sampleUA with outbound_proxy_set := [⟨"a", 0, 0⟩], sessions := [("k", "s1")] }

/-- A concrete engine state closed by the user, with a single candidate. -/
def userClosedUA : UA :=
  { sampleUA with status := UAStatus.USER_CLOSED, outbound_proxy_set := [⟨"a", 0, 0⟩] }

/-- Reachability invariant of the engine relating error cause and status: a
network-error cause occurs only in the `NOT_READY` state. It holds in the
initial states (`error = none`) and is preserved by every modelled operation;
the transport-connected theorem assumes it. -/
def networkErrorInv (ua : UA) : Prop :=
  ua.error = some UACause.networkError → ua.status = UAStatus.NOT_READY

/-! ## Properties of the failover selector -/

theorem candidateStep_mem (acc : List Server) (s : Server) :
    ∀ x ∈ candidateStep acc s, x ∈ acc ∨ x = s := by
  intro x hx
  unfold candidateStep at hx
  split at hx
  · exact Or.inl hx
  · split at hx
    · simp at hx
      exact Or.inr hx
    · split at hx
      · simp at hx
        exact Or.inr hx
      · split at hx
        · simp at hx
          rcases hx with rfl | hx | rfl
          · exact Or.inl (by simp)
          · exact Or.inl (by simp [hx])
          · exact Or.inr rfl
        · exact Or.inl hx

theorem foldl_candidateStep_mem :
    ∀ pool acc : List Server, ∀ x ∈ pool.foldl candidateStep acc, x ∈ acc ∨ x ∈ pool := by
  intro pool
  induction pool with
  | nil => intro acc x hx; exact Or.inl hx
  | cons p ps ih =>
      intro acc x hx
      simp only [List.foldl_cons] at hx
      rcases ih (candidateStep acc p) x hx with h | h
      · rcases candidateStep_mem acc p x h with h1 | h1
        · exact Or.inl h1
        · exact Or.inr (by simp [h1])
      · exact Or.inr (List.mem_cons_of_mem _ h)

theorem candidateStep_notExcluded (acc : List Server) (s : Server)
    (hacc : ∀ x ∈ acc, x.status ≠ 2) :
    ∀ x ∈ candidateStep acc s, x.status ≠ 2 := by
  intro x hx
  by_cases h2 : s.status = 2
  · rw [show candidateStep acc s = acc from by simp [candidateStep, h2]] at hx
    exact hacc x hx
  · rcases candidateStep_mem acc s x hx with h | h
    · exact hacc x h
    · rw [h]; exact h2

theorem foldl_candidateStep_notExcluded :
    ∀ pool acc : List Server, (∀ x ∈ acc, x.status ≠ 2) →
      ∀ x ∈ pool.foldl candidateStep acc, x.status ≠ 2 := by
  intro pool
  induction pool with
  | nil => intro acc h x hx; exact h x hx
  | cons p ps ih =>
      intro acc h x hx
      simp only [List.foldl_cons] at hx
      exact ih _ (candidateStep_notExcluded acc p h) x hx

theorem candidateStep_uniform (acc : List Server) (s : Server)
    (h : ∀ x ∈ acc, ∀ y ∈ acc, x.weight = y.weight) :
    ∀ x ∈ candidateStep acc s, ∀ y ∈ candidateStep acc s, x.weight = y.weight := by
  by_cases h2 : s.status = 2
  · simpa [candidateStep, h2] using h
  · rcases acc with _ | ⟨c, rest⟩
    · simp [candidateStep, h2]
    · by_cases hgt : s.weight > c.weight
      · simp [candidateStep, h2, hgt]
      · by_cases heq : s.weight = c.weight
        · intro x hx y hy
          simp [candidateStep, h2, hgt, heq] at hx hy
          have key : ∀ z : Server, z = c ∨ z ∈ rest ∨ z = s → z.weight = c.weight := by
            intro z hz
            rcases hz with rfl | hz | rfl
            · rfl
            · exact h z (by simp [hz]) c (by simp)
            · exact heq
          rw [key x hx, key y hy]
        · simpa [candidateStep, h2, hgt, heq] using h

theorem candidateStep_dominated (acc : List Server) (p : Server)
    (hu : ∀ x ∈ acc, ∀ y ∈ acc, x.weight = y.weight) (x : Server)
    (hdom : ∀ t ∈ candidateStep acc p, t.weight ≤ x.weight) :
    (p.status ≠ 2 → p.weight ≤ x.weight) ∧ (∀ t ∈ acc, t.weight ≤ x.weight) := by
  by_cases h2 : p.status = 2
  · rw [show candidateStep acc p = acc from by simp [candidateStep, h2]] at hdom
    exact ⟨fun h => absurd h2 h, hdom⟩
  · rcases acc with _ | ⟨c, rest⟩
    · rw [show candidateStep [] p = [p] from by simp [candidateStep, h2]] at hdom
      exact ⟨fun _ => hdom p (by simp), by simp⟩
    · by_cases hgt : p.weight > c.weight
      · rw [show candidateStep (c :: rest) p = [p] from by
            simp [candidateStep, h2, hgt]] at hdom
        have hp : p.weight ≤ x.weight := hdom p (by simp)
        refine ⟨fun _ => hp, fun t ht => ?_⟩
        calc t.weight = c.weight := hu t ht c (by simp)
          _ ≤ p.weight := le_of_lt hgt
          _ ≤ x.weight := hp
      · by_cases heq : p.weight = c.weight
        · rw [show candidateStep (c :: rest) p = (c :: rest) ++ [p] from by
              simp [candidateStep, h2, hgt, heq]] at hdom
          refine ⟨fun _ => hdom p (by simp), fun t ht => hdom t ?_⟩
          rcases List.mem_cons.mp ht with rfl | h
          · simp
          · simp [h]
        · rw [show candidateStep (c :: rest) p = c :: rest from by
              simp [candidateStep, h2, hgt, heq]] at hdom
          have hc : c.weight ≤ x.weight := hdom c (by simp)
          have hpc : p.weight < c.weight := lt_of_le_of_ne (not_lt.mp hgt) heq
          exact ⟨fun _ => le_trans (le_of_lt hpc) hc, hdom⟩

theorem foldl_candidateStep_dominates :
    ∀ pool acc : List Server,
      (∀ x ∈ acc, ∀ y ∈ acc, x.weight = y.weight) →
      ∀ x ∈ pool.foldl candidateStep acc,
        (∀ t ∈ pool, t.status ≠ 2 → t.weight ≤ x.weight) ∧
        (∀ t ∈ acc, t.weight ≤ x.weight) := by
  intro pool
  induction pool with
  | nil =>
      intro acc hu x hx
      exact ⟨by simp, fun t ht => le_of_eq (hu t ht x hx)⟩
  | cons p ps ih =>
      intro acc hu x hx
      simp only [List.foldl_cons] at hx
      have IH := ih (candidateStep acc p) (candidateStep_uniform acc p hu) x hx
      have hsplit := candidateStep_dominated acc p hu x IH.2
      constructor
      · intro t ht h2
        rcases List.mem_cons.mp ht with rfl | hmem
        · exact hsplit.1 h2
        · exact IH.1 t hmem h2
      · exact hsplit.2

theorem foldl_candidateStep_nil :
    ∀ pool : List Server, (∀ t ∈ pool, t.status = 2) →
      pool.foldl candidateStep [] = [] := by
  intro pool
  induction pool with
  | nil => intro _; rfl
  | cons p ps ih =>
      intro h
      simp only [List.foldl_cons]
      rw [show candidateStep [] p = [] from by simp [candidateStep, h p (by simp)]]
      exact ih fun t ht => h t (by simp [ht])

/-- C3: `getNextWsServer` never returns an EXCLUDED (status 2) candidate;
every candidate it returns belongs to the pool and carries the maximal weight
among non-excluded candidates; and when every candidate is EXCLUDED it
returns `none`, for every random draw. The embedding is a pure function of
the pool, so selection mutates no state by construction. -/
theorem getNextWsServer_spec (pool : List Server) (ridx : Nat) :
    (∀ s, getNextWsServer pool ridx = some s →
        s ∈ pool ∧ s.status ≠ 2 ∧ ∀ t ∈ pool, t.status ≠ 2 → t.weight ≤ s.weight) ∧
    ((∀ t ∈ pool, t.status = 2) → getNextWsServer pool ridx = none) := by
  constructor
  · intro s hs
    have hmem : s ∈ buildCandidates pool := by
      unfold getNextWsServer at hs
      exact List.getElem?_mem hs
    refine ⟨?_, ?_, ?_⟩
    · rcases foldl_candidateStep_mem pool [] s hmem with h | h
      · simp at h
      · exact h
    · exact foldl_candidateStep_notExcluded pool [] (by simp) s hmem
    · exact (foldl_candidateStep_dominates pool [] (by simp) s hmem).1
  · intro hall
    unfold getNextWsServer buildCandidates
    rw [foldl_candidateStep_nil pool hall]
    simp

/-- Witness for C3 at a concrete pool: the selector picks the non-excluded
candidate of maximal weight, and returns `none` on an all-excluded pool. -/
theorem getNextWsServer_spec_witness :
    ((⟨"b", 3, 0⟩ : Server) ∈ ([⟨"a", 5, 2⟩, ⟨"b", 3, 0⟩] : List Server) ∧
      (⟨"b", 3, 0⟩ : Server).status ≠ 2 ∧
      ∀ t ∈ ([⟨"a", 5, 2⟩, ⟨"b", 3, 0⟩] : List Server),
        t.status ≠ 2 → t.weight ≤ (⟨"b", 3, 0⟩ : Server).weight) ∧
    getNextWsServer [⟨"a", 5, 2⟩] 0 = none :=
  ⟨(getNextWsServer_spec [⟨"a", 5, 2⟩, ⟨"b", 3, 0⟩] 0).1 ⟨"b", 3, 0⟩ rfl,
   (getNextWsServer_spec [⟨"a", 5, 2⟩] 0).2 (by decide)⟩

/-! ## Counting replies in dispatcher traces -/

theorem countReplies_append (a b : List Event) :
    countReplies (a ++ b) = countReplies a + countReplies b := by
  simp [countReplies, List.filter_append]

theorem countCode_append (code : Nat) (a b : List Event) :
    countCode code (a ++ b) = countCode code a + countCode code b := by
  simp [countCode, List.filter_append]

theorem countReplies_serverTransactionEvents (req : SipRequest) :
    countReplies (serverTransactionEvents req) = 0 := by
  unfold serverTransactionEvents
  split
  · rfl
  · split
    · rfl
    · rfl

theorem countCode_serverTransactionEvents (code : Nat) (req : SipRequest) :
    countCode code (serverTransactionEvents req) = 0 := by
  unfold serverTransactionEvents
  split
  · rfl
  · split
    · rfl
    · rfl

theorem countReplies_optionsEvents (req : SipRequest) :
    countReplies (optionsEvents req) = if req.method = Method.OPTIONS then 1 else 0 := by
  unfold optionsEvents
  split
  · simp [countReplies, isReply, *]
  · simp [countReplies, *]

theorem countCode_optionsEvents_ne (code : Nat) (hc : code ≠ 200) (req : SipRequest) :
    countCode code (optionsEvents req) = 0 := by
  unfold optionsEvents
  split
  · simp [countCode, isReplyCode, Ne.symm hc]
  · rfl

theorem countCode_optionsEvents_200 (req : SipRequest) (h : req.method = Method.OPTIONS) :
    countCode 200 (optionsEvents req) = 1 := by
  simp [optionsEvents, h, countCode, isReplyCode]

theorem countReplies_initialRequestEvents (ua : UA) (env : DispatchEnv) (req : SipRequest) :
    countReplies (initialRequestEvents ua env req) ≤ 1 := by
  obtain ⟨m, ru, ci, ft, tt⟩ := req
  unfold initialRequestEvents
  split
  · simp [countReplies, isReply]
  · cases m
    case INVITE => dsimp only; split <;> simp [countReplies, isReply]
    case CANCEL =>
      dsimp only
      cases h : findSession ua.sessions ⟨Method.CANCEL, ru, ci, ft, tt⟩ <;>
        simp [h, countReplies, isReply]
    all_goals simp [countReplies, isReply]

theorem countCode_initialRequestEvents_200 (ua : UA) (env : DispatchEnv) (req : SipRequest) :
    countCode 200 (initialRequestEvents ua env req) = 0 := by
  obtain ⟨m, ru, ci, ft, tt⟩ := req
  unfold initialRequestEvents
  split
  · simp [countCode, isReplyCode]
  · cases m
    case INVITE => dsimp only; split <;> simp [countCode, isReplyCode]
    case CANCEL =>
      dsimp only
      cases h : findSession ua.sessions ⟨Method.CANCEL, ru, ci, ft, tt⟩ <;>
        simp [h, countCode, isReplyCode]
    all_goals simp [countCode, isReplyCode]

theorem countReplies_inDialogEvents (ua : UA) (req : SipRequest) :
    countReplies (inDialogEvents ua req) ≤ 1 := by
  unfold inDialogEvents
  cases h : findDialog ua.dialogs req
  case some d => simp [countReplies, isReply]
  case none =>
    by_cases hN : req.method = Method.NOTIFY
    · cases hs : findSession ua.sessions req <;> simp [hN, hs, countReplies, isReply]
    · by_cases hA : req.method = Method.ACK <;> simp [hN, hA, countReplies, isReply]

theorem countCode_inDialogEvents_200 (ua : UA) (req : SipRequest) :
    countCode 200 (inDialogEvents ua req) = 0 := by
  unfold inDialogEvents
  cases h : findDialog ua.dialogs req
  case some d => simp [countCode, isReplyCode]
  case none =>
    by_cases hN : req.method = Method.NOTIFY
    · cases hs : findSession ua.sessions req <;> simp [hN, hs, countCode, isReplyCode]
    · by_cases hA : req.method = Method.ACK <;> simp [hN, hA, countCode, isReplyCode]

/-! ## Dispatcher claims -/

/-- C1 counterexample: `receiveRequest` can produce two protocol replies in a
single invocation. An initial OPTIONS request for the local user, not a
retransmission, in registered state, draws the capability 200 reply and then
falls through into the routing fork, whose `default` switch branch sends a
second reply, 405. -/
theorem receiveRequest_two_replies_counterexample :
    countReplies (receiveRequest sampleUA sampleEnv
        { method := Method.OPTIONS, ruri_user := "alice", call_id := "c",
          from_tag := "f", to_tag := "" }) = 2 := by decide

/-- C1 (amended): per invocation, `receiveRequest` produces at most one
protocol reply for every non-OPTIONS request, and at most two in general
(the OPTIONS capability 200 may be followed by one routing-fork reply). -/
theorem receiveRequest_reply_bound (ua : UA) (env : DispatchEnv) (req : SipRequest) :
    (req.method ≠ Method.OPTIONS → countReplies (receiveRequest ua env req) ≤ 1) ∧
    countReplies (receiveRequest ua env req) ≤ 2 := by
  by_cases h404 : req.ruri_user ≠ ua.conf_user
  · rw [show receiveRequest ua env req = [Event.replySl 404 REASON_404] from by
      simp [receiveRequest, h404]]
    exact ⟨fun _ => by simp [countReplies, isReply], by simp [countReplies, isReply]⟩
  · by_cases htx : env.checkTransaction
    · rw [show receiveRequest ua env req = [] from by simp [receiveRequest, h404, htx]]
      exact ⟨fun _ => by simp [countReplies], by simp [countReplies]⟩
    · have hfork :
          countReplies (if req.to_tag = "" then initialRequestEvents ua env req
            else inDialogEvents ua req) ≤ 1 := by
        split
        · exact countReplies_initialRequestEvents ua env req
        · exact countReplies_inDialogEvents ua req
      have htr : receiveRequest ua env req =
          serverTransactionEvents req ++ optionsEvents req ++
            (if req.to_tag = "" then initialRequestEvents ua env req
             else inDialogEvents ua req) := by
        simp [receiveRequest, h404, htx]
      rw [htr, countReplies_append, countReplies_append,
        countReplies_serverTransactionEvents, countReplies_optionsEvents]
      constructor
      · intro hopt
        simp only [hopt, if_false]
        omega
      · split <;> omega

/-- Witness for C1 (amended) at a concrete non-OPTIONS request. -/
theorem receiveRequest_reply_bound_witness :
    countReplies (receiveRequest sampleUA sampleEnv
        { method := Method.BYE, ruri_user := "alice", call_id := "c",
          from_tag := "f", to_tag := "" }) ≤ 1 ∧
    countReplies (receiveRequest sampleUA sampleEnv
        { method := Method.BYE, ruri_user := "alice", call_id := "c",
          from_tag := "f", to_tag := "" }) ≤ 2 :=
  ⟨(receiveRequest_reply_bound sampleUA sampleEnv
      { method := Method.BYE, ruri_user := "alice", call_id := "c",
        from_tag := "f", to_tag := "" }).1 (by decide),
   (receiveRequest_reply_bound sampleUA sampleEnv
      { method := Method.BYE, ruri_user := "alice", call_id := "c",
        from_tag := "f", to_tag := "" }).2⟩

/-- C2 counterexample: the OPTIONS handling is not free of other side
effects. The full trace of a concrete OPTIONS invocation also contains the
creation of a non-INVITE server transaction and a second reply (405) from the
routing fork, so "exactly one 200 reply ... and no other side effect" fails. -/
theorem receiveRequest_options_counterexample :
    receiveRequest sampleUA sampleEnv
        { method := Method.OPTIONS, ruri_user := "alice", call_id := "c",
          from_tag := "f", to_tag := "" } =
      [Event.createNonInviteServerTransaction,
       Event.reply 200 REASON_200
         [("Allow", ALLOWED_METHODS), ("Accept", ACCEPTED_BODY_TYPES)],
       Event.reply 405 REASON_405 []] := by decide

/-- C2 (amended): for every OPTIONS request whose target user matches the
local user and that is not a known retransmission, the dispatcher sends
exactly one 200 reply, and that reply carries the capability headers,
regardless of dialog context; in addition a non-INVITE server transaction is
created and the request continues through the routing fork, which adds at
most one further (non-200) reply. -/
theorem receiveRequest_options_spec (ua : UA) (env : DispatchEnv) (req : SipRequest)
    (hm : req.method = Method.OPTIONS) (huser : req.ruri_user = ua.conf_user)
    (htx : env.checkTransaction = false) :
    countCode 200 (receiveRequest ua env req) = 1 ∧
    Event.reply 200 REASON_200 [("Allow", ALLOWED_METHODS), ("Accept", ACCEPTED_BODY_TYPES)]
        ∈ receiveRequest ua env req ∧
    Event.createNonInviteServerTransaction ∈ receiveRequest ua env req ∧
    countReplies (receiveRequest ua env req) ≤ 2 := by
  have htr : receiveRequest ua env req =
      serverTransactionEvents req ++ optionsEvents req ++
        (if req.to_tag = "" then initialRequestEvents ua env req
         else inDialogEvents ua req) := by
    simp [receiveRequest, huser, htx]
  have hfork200 :
      countCode 200 (if req.to_tag = "" then initialRequestEvents ua env req
        else inDialogEvents ua req) = 0 := by
    split
    · exact countCode_initialRequestEvents_200 ua env req
    · exact countCode_inDialogEvents_200 ua req
  have hforkLe :
      countReplies (if req.to_tag = "" then initialRequestEvents ua env req
        else inDialogEvents ua req) ≤ 1 := by
    split
    · exact countReplies_initialRequestEvents ua env req
    · exact countReplies_inDialogEvents ua req
  refine ⟨?_, ?_, ?_, ?_⟩
  · rw [htr, countCode_append, countCode_append, countCode_serverTransactionEvents,
      countCode_optionsEvents_200 req hm, hfork200]
  · rw [htr]
    refine List.mem_append_left _ (List.mem_append_right _ ?_)
    simp [optionsEvents, hm]
  · rw [htr]
    refine List.mem_append_left _ (List.mem_append_left _ ?_)
    simp [serverTransactionEvents, hm]
  · rw [htr, countReplies_append, countReplies_append,
      countReplies_serverTransactionEvents, countReplies_optionsEvents, hm]
    simp only [if_true]
    omega

/-- Witness for C2 (amended) at a concrete in-dialog OPTIONS request. -/
theorem receiveRequest_options_spec_witness :
    countCode 200 (receiveRequest sampleUA sampleEnv
        { method := Method.OPTIONS, ruri_user := "alice", call_id := "c",
          from_tag := "f", to_tag := "t" }) = 1 ∧
    Event.reply 200 REASON_200 [("Allow", ALLOWED_METHODS), ("Accept", ACCEPTED_BODY_TYPES)]
        ∈ receiveRequest sampleUA sampleEnv
        { method := Method.OPTIONS, ruri_user := "alice", call_id := "c",
          from_tag := "f", to_tag := "t" } ∧
    Event.createNonInviteServerTransaction ∈ receiveRequest sampleUA sampleEnv
        { method := Method.OPTIONS, ruri_user := "alice", call_id := "c",
          from_tag := "f", to_tag := "t" } ∧
    countReplies (receiveRequest sampleUA sampleEnv
        { method := Method.OPTIONS, ruri_user := "alice", call_id := "c",
          from_tag := "f", to_tag := "t" }) ≤ 2 :=
  receiveRequest_options_spec sampleUA sampleEnv
    { method := Method.OPTIONS, ruri_user := "alice", call_id := "c",
      from_tag := "f", to_tag := "t" } rfl rfl rfl

/-- C4: `findDialog` returns the dialog registered under the key
call-id ++ from-tag ++ to-tag when present, else the one registered under
call-id ++ to-tag ++ from-tag, else `none`; and whenever at most one of the
two tag orderings is registered, the lookup result is invariant under
swapping the two tags of the request. -/
theorem findDialog_spec (dialogs : List (String × String)) (req : SipRequest) :
    (∀ d, dialogs.lookup (req.call_id ++ req.from_tag ++ req.to_tag) = some d →
        findDialog dialogs req = some d) ∧
    (dialogs.lookup (req.call_id ++ req.from_tag ++ req.to_tag) = none →
        findDialog dialogs req =
          dialogs.lookup (req.call_id ++ req.to_tag ++ req.from_tag)) ∧
    (dialogs.lookup (req.call_id ++ req.from_tag ++ req.to_tag) = none ∨
        dialogs.lookup (req.call_id ++ req.to_tag ++ req.from_tag) = none →
      findDialog dialogs req =
        findDialog dialogs { req with from_tag := req.to_tag, to_tag := req.from_tag }) := by
  refine ⟨?_, ?_, ?_⟩
  · intro d hd
    simp [findDialog, hd]
  · intro h1
    simp [findDialog, h1]
  · intro h
    rcases h with h1 | h2
    · cases hlk2 : dialogs.lookup (req.call_id ++ req.to_tag ++ req.from_tag) <;>
        simp [findDialog, h1, hlk2]
    · cases hlk1 : dialogs.lookup (req.call_id ++ req.from_tag ++ req.to_tag) <;>
        simp [findDialog, hlk1, h2]

/-- Witness for C4: a dialog registered under (C,A,B) is found by a request
with from-tag A, to-tag B, and also by the tag-swapped request. -/
theorem findDialog_spec_witness :
    findDialog [("cab", "d1")]
      { method := Method.BYE, ruri_user := "alice", call_id := "c",
        from_tag := "a", to_tag := "b" } = some "d1" ∧
    findDialog [("cab", "d1")]
      { method := Method.BYE, ruri_user := "alice", call_id := "c",
        from_tag := "b", to_tag := "a" } = some "d1" :=
  ⟨(findDialog_spec [("cab", "d1")]
      { method := Method.BYE, ruri_user := "alice", call_id := "c",
        from_tag := "a", to_tag := "b" }).1 "d1" (by decide),
   by
    have h := (findDialog_spec [("cab", "d1")]
      { method := Method.BYE, ruri_user := "alice", call_id := "c",
        from_tag := "b", to_tag := "a" }).2.1 (by decide)
    rw [h]; decide⟩

/-- C5: a request whose target user differs from the configured local user
draws exactly one stateless 404 reply and nothing else: no server transaction
is created and no session or dialog registry lookup is performed. -/
theorem receiveRequest_404_spec (ua : UA) (env : DispatchEnv) (req : SipRequest)
    (h : req.ruri_user ≠ ua.conf_user) :
    receiveRequest ua env req = [Event.replySl 404 REASON_404] ∧
    countReplies (receiveRequest ua env req) = 1 ∧
    Event.createInviteServerTransaction ∉ receiveRequest ua env req ∧
    Event.createNonInviteServerTransaction ∉ receiveRequest ua env req ∧
    Event.sessionLookup ∉ receiveRequest ua env req ∧
    Event.dialogLookup ∉ receiveRequest ua env req := by
  have htr : receiveRequest ua env req = [Event.replySl 404 REASON_404] := by
    simp [receiveRequest, h]
  rw [htr]
  exact ⟨rfl, by simp [countReplies, isReply], by simp, by simp, by simp, by simp⟩

/-- Witness for C5 at a concrete mismatching request. -/
theorem receiveRequest_404_spec_witness :
    receiveRequest sampleUA sampleEnv
        { method := Method.INVITE, ruri_user := "bob", call_id := "c",
          from_tag := "f", to_tag := "" } = [Event.replySl 404 REASON_404] ∧
    countReplies (receiveRequest sampleUA sampleEnv
        { method := Method.INVITE, ruri_user := "bob", call_id := "c",
          from_tag := "f", to_tag := "" }) = 1 ∧
    Event.createInviteServerTransaction ∉ receiveRequest sampleUA sampleEnv
        { method := Method.INVITE, ruri_user := "bob", call_id := "c",
          from_tag := "f", to_tag := "" } ∧
    Event.createNonInviteServerTransaction ∉ receiveRequest sampleUA sampleEnv
        { method := Method.INVITE, ruri_user := "bob", call_id := "c",
          from_tag := "f", to_tag := "" } ∧
    Event.sessionLookup ∉ receiveRequest sampleUA sampleEnv
        { method := Method.INVITE, ruri_user := "bob", call_id := "c",
          from_tag := "f", to_tag := "" } ∧
    Event.dialogLookup ∉ receiveRequest sampleUA sampleEnv
        { method := Method.INVITE, ruri_user := "bob", call_id := "c",
          from_tag := "f", to_tag := "" } :=
  receiveRequest_404_spec sampleUA sampleEnv
    { method := Method.INVITE, ruri_user := "bob", call_id := "c",
      from_tag := "f", to_tag := "" } (by decide)

/-- C6: for an in-dialog request (remote tag present) that reaches the
routing fork (target user matches, not a retransmission) and matches no
dialog: a method other than NOTIFY and ACK draws exactly one 481 reply, and
ACK draws no reply at all. -/
theorem receiveRequest_noDialog_spec (ua : UA) (env : DispatchEnv) (req : SipRequest)
    (huser : req.ruri_user = ua.conf_user) (htx : env.checkTransaction = false)
    (htag : req.to_tag ≠ "") (hdlg : findDialog ua.dialogs req = none) :
    (req.method ≠ Method.NOTIFY → req.method ≠ Method.ACK →
        countCode 481 (receiveRequest ua env req) = 1) ∧
    (req.method = Method.ACK → countReplies (receiveRequest ua env req) = 0) := by
  have htr : receiveRequest ua env req =
      serverTransactionEvents req ++ optionsEvents req ++ inDialogEvents ua req := by
    simp [receiveRequest, huser, htx, htag]
  constructor
  · intro hN hA
    have hin : inDialogEvents ua req = [Event.dialogLookup, Event.reply 481 REASON_481 []] := by
      simp [inDialogEvents, hdlg, hN, hA]
    rw [htr, countCode_append, countCode_append, countCode_serverTransactionEvents,
      countCode_optionsEvents_ne 481 (by omega) req, hin]
    rfl
  · intro hA
    have hin : inDialogEvents ua req = [Event.dialogLookup] := by
      simp [inDialogEvents, hdlg, hA]
    rw [htr, countReplies_append, countReplies_append,
      countReplies_serverTransactionEvents, countReplies_optionsEvents, hA, hin]
    rfl

/-- Witness for C6: a concrete in-dialog BYE with no matching dialog draws
one 481, and a concrete in-dialog ACK with no matching dialog draws nothing. -/
theorem receiveRequest_noDialog_spec_witness :
    countCode 481 (receiveRequest sampleUA sampleEnv
        { method := Method.BYE, ruri_user := "alice", call_id := "c",
          from_tag := "f", to_tag := "t" }) = 1 ∧
    countReplies (receiveRequest sampleUA sampleEnv
        { method := Method.ACK, ruri_user := "alice", call_id := "c",
          from_tag := "f", to_tag := "t" }) = 0 :=
  ⟨(receiveRequest_noDialog_spec sampleUA sampleEnv
      { method := Method.BYE, ruri_user := "alice", call_id := "c",
        from_tag := "f", to_tag := "t" } rfl rfl (by decide) (by decide)).1
      (by decide) (by decide),
   (receiveRequest_noDialog_spec sampleUA sampleEnv
      { method := Method.ACK, ruri_user := "alice", call_id := "c",
        from_tag := "f", to_tag := "t" } rfl rfl (by decide) (by decide)).2 rfl⟩

/-! ## Transport event and lifecycle claims -/

theorem countEvent_append (e : Event) (a b : List Event) :
    countEvent e (a ++ b) = countEvent e a + countEvent e b := by
  simp [countEvent, List.filter_append]

theorem countEvent_emit_map_sessionErr (s : String) (l : List (String × String)) :
    countEvent (Event.emit s) (l.map (fun x => Event.sessionTransportError x.2)) = 0 := by
  induction l with
  | nil => rfl
  | cons a t ih => simpa [countEvent, List.filter] using ih

theorem countEvent_emit_closeSessions (ua : UA) (s : String) :
    countEvent (Event.emit s) (closeSessionsOnTransportError ua) = 0 := by
  unfold closeSessionsOnTransportError
  rw [countEvent_append, countEvent_emit_map_sessionErr]
  cases h : ua.registrator <;> simp [h, countEvent]

/-- C7: when a transport error excludes the failing candidate and the
failover selector finds no remaining candidate, the engine becomes
`NOT_READY` with a network-error cause, every live session receives the
transport-error termination, the registrator (when present) is closed, and
exactly one `disconnect` notification is emitted. -/
theorem onTransportError_exhausted_spec (ua : UA) (serverIdx ridx : Nat)
    (h : getNextWsServer (markServer ua.outbound_proxy_set serverIdx WS_SERVER_ERROR) ridx
        = none) :
    (onTransportError ua serverIdx ridx).1.status = UAStatus.NOT_READY ∧
    (onTransportError ua serverIdx ridx).1.error = some UACause.networkError ∧
    countEvent (Event.emit "disconnect") (onTransportError ua serverIdx ridx).2 = 1 ∧
    (∀ s ∈ ua.sessions,
        Event.sessionTransportError s.2 ∈ (onTransportError ua serverIdx ridx).2) ∧
    (ua.registrator.isSome →
        Event.registratorOnTransportClosed ∈ (onTransportError ua serverIdx ridx).2) := by
  have he : onTransportError ua serverIdx ridx =
      ({ ua with
          outbound_proxy_set := markServer ua.outbound_proxy_set serverIdx WS_SERVER_ERROR,
          status := UAStatus.NOT_READY, error := some UACause.networkError },
        closeSessionsOnTransportError
            { ua with
              outbound_proxy_set :=
                markServer ua.outbound_proxy_set serverIdx WS_SERVER_ERROR } ++
          [Event.emit "disconnect"]) := by
    simp [onTransportError, h]
  rw [he]
  refine ⟨rfl, rfl, ?_, ?_, ?_⟩
  · rw [countEvent_append, countEvent_emit_closeSessions]
    rfl
  · intro s hs
    apply List.mem_append_left
    unfold closeSessionsOnTransportError
    apply List.mem_append_left
    simp only [List.mem_map]
    exact ⟨s, hs, rfl⟩
  · intro hreg
    apply List.mem_append_left
    unfold closeSessionsOnTransportError
    apply List.mem_append_right
    cases hr : ua.registrator
    · rw [hr] at hreg
      simp at hreg
    · simp [hr]

/-- Witness for C7: the single-candidate engine reaches exhaustion. -/
theorem onTransportError_exhausted_spec_witness :
    (onTransportError exhaustedUA 0 0).1.status = UAStatus.NOT_READY ∧
    (onTransportError exhaustedUA 0 0).1.error = some UACause.networkError ∧
    countEvent (Event.emit "disconnect") (onTransportError exhaustedUA 0 0).2 = 1 ∧
    Event.sessionTransportError "s1" ∈ (onTransportError exhaustedUA 0 0).2 ∧
    Event.registratorOnTransportClosed ∈ (onTransportError exhaustedUA 0 0).2 := by
  have h := onTransportError_exhausted_spec exhaustedUA 0 0 (by decide)
  exact ⟨h.1, h.2.1, h.2.2.1, h.2.2.2.1 ("k", "s1") (by decide), h.2.2.2.2 (by decide)⟩

theorem markServer_getElem (l : List Server) (i : Nat) (st : Nat) (h : i < l.length) :
    ∃ s, (markServer l i st)[i]? = some s ∧ s.status = st := by
  induction l generalizing i with
  | nil => simp at h
  | cons a t ih =>
      cases i with
      | zero => exact ⟨{ a with status := st }, by simp [markServer], rfl⟩
      | succ n =>
          have hn : n < t.length := by simpa using h
          obtain ⟨s, hs1, hs2⟩ := ih n hn
          refine ⟨s, ?_, hs2⟩
          simpa [markServer] using hs1

theorem onTransportConnected_eq_userClosed (ua : UA) (i : Nat)
    (h : ua.status = UAStatus.USER_CLOSED) :
    onTransportConnected ua i =
      ({ ua with
          outbound_proxy_set := markServer ua.outbound_proxy_set i WS_SERVER_READY }, []) := by
  simp [onTransportConnected, h]

theorem onTransportConnected_open (ua : UA) (i : Nat)
    (h : ua.status ≠ UAStatus.USER_CLOSED) :
    (onTransportConnected ua i).1.status = UAStatus.READY ∧
    (onTransportConnected ua i).1.error = none ∧
    (onTransportConnected ua i).1.outbound_proxy_set =
      markServer ua.outbound_proxy_set i WS_SERVER_READY := by
  by_cases har : ua.auto_register
  · cases hr : ua.registrator <;> simp [onTransportConnected, h, har, hr]
  · simp [onTransportConnected, h, har]

/-- C8: on a transport Connected event the candidate is marked with
`WS_SERVER_READY` (CONNECTED); under the reachability invariant relating a
network-error cause to the `NOT_READY` state, no network-failure cause
remains afterwards; and when the engine was `USER_CLOSED` no further action
is taken: no events (so no registration activity and no connect
notification), no status change, no registrator change, no error change. -/
theorem onTransportConnected_spec (ua : UA) (i : Nat)
    (hInv : networkErrorInv ua) (hIdx : i < ua.outbound_proxy_set.length) :
    (∃ s, (onTransportConnected ua i).1.outbound_proxy_set[i]? = some s ∧
        s.status = WS_SERVER_READY) ∧
    (onTransportConnected ua i).1.error ≠ some UACause.networkError ∧
    (ua.status = UAStatus.USER_CLOSED →
        (onTransportConnected ua i).2 = [] ∧
        (onTransportConnected ua i).1.status = UAStatus.USER_CLOSED ∧
        (onTransportConnected ua i).1.registrator = ua.registrator ∧
        (onTransportConnected ua i).1.error = ua.error) := by
  obtain ⟨s, hs1, hs2⟩ := markServer_getElem ua.outbound_proxy_set i WS_SERVER_READY hIdx
  by_cases hUC : ua.status = UAStatus.USER_CLOSED
  · have hne : ua.error ≠ some UACause.networkError := by
      intro hc
      exact absurd ((hInv hc).symm.trans hUC) (by decide)
    rw [onTransportConnected_eq_userClosed ua i hUC]
    exact ⟨⟨s, hs1, hs2⟩, hne, fun _ => ⟨rfl, hUC, rfl, rfl⟩⟩
  · obtain ⟨hstat, herr, hpool⟩ := onTransportConnected_open ua i hUC
    refine ⟨⟨s, ?_, hs2⟩, ?_, fun hc => absurd hc hUC⟩
    · rw [hpool]
      exact hs1
    · rw [herr]
      simp

/-- Witness for C8 at a concrete `USER_CLOSED` engine. -/
theorem onTransportConnected_spec_witness :
    (onTransportConnected userClosedUA 0).1.error ≠ some UACause.networkError ∧
    (onTransportConnected userClosedUA 0).2 = [] ∧
    (onTransportConnected userClosedUA 0).1.status = UAStatus.USER_CLOSED ∧
    (onTransportConnected userClosedUA 0).1.registrator = userClosedUA.registrator := by
  have h := onTransportConnected_spec userClosedUA 0 (by intro hc; simp [userClosedUA, sampleUA] at hc)
    (by decide)
  exact ⟨h.2.1, (h.2.2 rfl).1, (h.2.2 rfl).2.1, (h.2.2 rfl).2.2.1⟩

/-- C9: each public operation (`register`, `deregister`, `call`, `message`)
raises the not-ready error in every status other than `READY`, and never
raises it in `READY`. -/
theorem publicOps_ready_gating (ua : UA) (env : DispatchEnv) (targetValid all : Bool) :
    (ua.status ≠ UAStatus.READY →
        register ua = Except.error UAExc.notReadyError ∧
        deregister ua all = Except.error UAExc.notReadyError ∧
        call ua env targetValid = Except.error UAExc.notReadyError ∧
        message ua targetValid = Except.error UAExc.notReadyError) ∧
    (ua.status = UAStatus.READY →
        register ua ≠ Except.error UAExc.notReadyError ∧
        deregister ua all ≠ Except.error UAExc.notReadyError ∧
        call ua env targetValid ≠ Except.error UAExc.notReadyError ∧
        message ua targetValid ≠ Except.error UAExc.notReadyError) := by
  constructor
  · intro h
    exact ⟨by simp [register, h], by simp [deregister, h], by simp [call, h],
      by simp [message, h]⟩
  · intro h
    refine ⟨by simp [register, h], by simp [deregister, h], ?_, ?_⟩
    · unfold call
      rw [if_neg (by simp [h])]
      split
      · simp
      · split <;> simp
    · unfold message
      rw [if_neg (by simp [h])]
      split <;> simp

/-- Witness for C9: concrete `NOT_READY` and `READY` engines. -/
theorem publicOps_ready_gating_witness :
    register { sampleUA with status := UAStatus.NOT_READY } =
      Except.error UAExc.notReadyError ∧
    message { sampleUA with status := UAStatus.NOT_READY } true =
      Except.error UAExc.notReadyError ∧
    register sampleUA ≠ Except.error UAExc.notReadyError ∧
    call sampleUA sampleEnv true ≠ Except.error UAExc.notReadyError := by
  have h1 := (publicOps_ready_gating { sampleUA with status := UAStatus.NOT_READY }
    sampleEnv true true).1 (by decide)
  have h2 := (publicOps_ready_gating sampleUA sampleEnv true true).2 (by decide)
  exact ⟨h1.1, h1.2.2.2, h2.1, h2.2.2.1⟩

/-- C10: `stop` outside `READY` raises the not-ready error. In this embedding
an `Except.error` result carries no successor state and no event trace, which
matches the source: the throw at line 194 precedes the registrator close, the
session terminations, the applicant closes, the grace-timer scheduling and
the status change, so none of them happens and the engine state is
unchanged. -/
theorem stop_notReady_spec (ua : UA) (h : ua.status ≠ UAStatus.READY) :
    stop ua = Except.error UAExc.notReadyError := by
  simp [stop, h]

/-- Witness for C10 at a concrete `INIT` engine. -/
theorem stop_notReady_spec_witness :
    stop { sampleUA with status := UAStatus.INIT } = Except.error UAExc.notReadyError :=
  stop_notReady_spec { sampleUA with status := UAStatus.INIT } (by decide)

/-! ## Preservation of the network-error reachability invariant

The hypothesis of the transport-connected theorem is the invariant
`networkErrorInv`. It holds whenever the error cause is absent — in
particular in the freshly constructed engine — and is preserved by every
modelled operation that writes `status` or `error` (the dispatcher and the
remaining public operations write neither in `UA.js`). -/

theorem networkErrorInv_of_error_none (ua : UA) (h : ua.error = none) :
    networkErrorInv ua := by
  intro hc
  rw [h] at hc
  cases hc

theorem networkErrorInv_stop (ua uaNew : UA) (evs : List Event)
    (h : networkErrorInv ua) (hs : stop ua = Except.ok (uaNew, evs)) :
    networkErrorInv uaNew := by
  unfold stop at hs
  split at hs
  · cases hs
  · next hready =>
      cases hs
      intro hc
      have hnr := h hc
      rw [not_not.mp hready] at hnr
      exact absurd hnr (by decide)

theorem networkErrorInv_start (ua uaNew : UA) (evs : List Event) (ridx : Nat)
    (h : networkErrorInv ua) (hs : start ua ridx = Except.ok (uaNew, evs)) :
    networkErrorInv uaNew := by
  unfold start at hs
  split at hs
  · cases hs
    exact h
  · split at hs
    · next hUC =>
        cases hs
        intro hc
        have hnr := h hc
        rw [hUC] at hnr
        exact absurd hnr (by decide)
    · split at hs
      · cases hs
        exact h
      · cases hs

theorem networkErrorInv_onTransportError (ua : UA) (i r : Nat)
    (h : networkErrorInv ua) :
    networkErrorInv (onTransportError ua i r).1 := by
  unfold onTransportError
  cases hn : getNextWsServer (markServer ua.outbound_proxy_set i WS_SERVER_ERROR) r
  · simp only [hn]
    intro _
    rfl
  · simp only [hn]
    exact h

theorem networkErrorInv_onTransportConnected (ua : UA) (i : Nat)
    (h : networkErrorInv ua) :
    networkErrorInv (onTransportConnected ua i).1 := by
  by_cases hUC : ua.status = UAStatus.USER_CLOSED
  · rw [onTransportConnected_eq_userClosed ua i hUC]
    intro hc
    exact h hc
  · obtain ⟨hstat, herr, _⟩ := onTransportConnected_open ua i hUC
    intro hc
    rw [herr] at hc
    cases hc

end JsSIPUA
